import Mathlib

/-!
Shallow embedding of `bsd/kern/sys_persona.c` (xnu-4570.71.2): the persona
syscall layer, together with a model of the persona registry that it drives.
The registry itself (`persona_alloc`, `persona_lookup`,
`persona_lookup_and_invalidate`, `persona_put`, `persona_set_gid`,
`persona_set_groups`, `persona_find`, `persona_proc_get`) lives in
`bsd/kern/persona.c`, which is not part of this repository snapshot; those
operations are modelled from the specification (sections 3, 4.1 and 4.3) and
each carries a doc comment saying so.  Machine integers (`uid_t`, `gid_t`,
`pid_t`, sizes) are modelled as `Nat`; the boundary copies
(`copyin` / `copyout`) and the external collaborators (privilege check,
process-to-persona resolution) are modelled by an environment record holding
each access's outcome.
-/

set_option maxRecDepth 4000

namespace SysPersona

/-- BSD errno code `EPERM` (operation not permitted). -/
def EPERM : Nat := 1

/-- BSD errno code `ESRCH` (no such process / persona not found). -/
def ESRCH : Nat := 3

/-- BSD errno code `ENOMEM` (allocator failure). -/
def ENOMEM : Nat := 12

/-- BSD errno code `EFAULT` (boundary copy fault). -/
def EFAULT : Nat := 14

/-- BSD errno code `EEXIST` (requested persona id already active). -/
def EEXIST : Nat := 17

/-- BSD errno code `EINVAL` (invalid argument / version mismatch). -/
def EINVAL : Nat := 22

/-- BSD errno code `ENOSPC` (registry capacity exceeded). -/
def ENOSPC : Nat := 28

/-- The single supported version of `struct kpersona_info`. -/
def PERSONA_INFO_V1 : Nat := 1

/-- Sentinel meaning "no persona id", `(uid_t)-1` at width 32. -/
def PERSONA_ID_NONE : Nat := 2 ^ 32 - 1

/-- Modelled from the spec: the sentinel identity that opts a persona out of
external group-membership resolution (`KAUTH_UID_NONE`, a distinguished
non-zero uid; the concrete value is `~(uid_t)0 - 100`). -/
def KAUTH_UID_NONE : Nat := 2 ^ 32 - 101

/-- Modelled from the spec: the "unset" sentinel for a primary group id
(`KAUTH_GID_NONE`). -/
def KAUTH_GID_NONE : Nat := 2 ^ 32 - 101

/-- Maximum login-name length; `persona_name` is `char[MAXLOGNAME + 1]`. -/
def MAXLOGNAME : Nat := 255

/-- Capacity of a persona's supplementary group list. -/
def NGROUPS : Nat := 16

/-- The wire record `struct kpersona_info` exchanged across the boundary.
`persona_name` holds the raw bytes of the `char[MAXLOGNAME + 1]` array. -/
structure KPersonaInfo where
  persona_info_version : Nat
  persona_id : Nat
  persona_type : Nat
  persona_gid : Nat
  persona_ngroups : Nat
  persona_groups : List Nat
  persona_gmuid : Nat
  persona_name : List Nat
  deriving Repr, DecidableEq

/-- Modelled from the spec (section 3): a persona object.  `pna_gid = none`
is the "unset" primary-group default; `pna_refcount` counts outstanding
acquired references including the registry's own allocation-time reference;
`pna_valid` transitions to `false` exactly once at invalidation. -/
structure Persona where
  pna_id : Nat
  pna_type : Nat
  pna_login : List Nat
  pna_gid : Option Nat
  pna_groups : List Nat
  pna_gmuid : Nat
  pna_refcount : Nat
  pna_valid : Bool
  deriving Repr, DecidableEq

/-- Modelled from the spec (section 3): the process-wide registry, a table of
personas plus the identifier allocation cursor `next_id_hint`. -/
structure Registry where
  table : List Persona
  nextId : Nat
  deriving Repr, DecidableEq

/-- The C string stored in a byte array: everything before the first NUL. -/
def cstr (bytes : List Nat) : List Nat := bytes.takeWhile (fun b => b != 0)

/-- Whether some table entry (valid or not) carries the given id. -/
def idTaken (t : List Persona) (i : Nat) : Bool := t.any (fun p => p.pna_id == i)

/-- First unused id at or after the cursor `c`, probing at most `fuel`
candidates (with `fuel = t.length + 1` an unused id is always reached). -/
def freshIdAux (t : List Persona) : Nat → Nat → Nat
  | c, 0 => c
  | c, fuel + 1 => if idTaken t c then freshIdAux t (c + 1) fuel else c

/-- Update the first table entry carrying the given id. -/
def updateTable (i : Nat) (f : Persona → Persona) : List Persona → List Persona
  | [] => []
  | p :: rest => if p.pna_id == i then f p :: rest else p :: updateTable i f rest

/-- Modelled from the spec (section 4.1, `release`): decrement the refcount of
the (unique, by invariant 5) entry carrying the id; when the count reaches
zero on an invalidated persona, remove and free it.  The C `persona_put`
receives the object pointer; entries are addressed by id here, which agrees
with it whenever table ids are distinct. -/
def putTable : List Persona → Nat → List Persona
  | [], _ => []
  | p :: rest, i =>
    if p.pna_id == i then
      if p.pna_refcount - 1 == 0 && !p.pna_valid then rest
      else { p with pna_refcount := p.pna_refcount - 1 } :: rest
    else p :: putTable rest i

/-- Modelled from the spec: `Registry.release` lifted to the registry. -/
def persona_put (i : Nat) (reg : Registry) : Registry :=
  { reg with table := putTable reg.table i }

/-- Release, in order, one reference per id in the list. -/
def putAll (ids : List Nat) (t : List Persona) : List Persona :=
  ids.foldl (fun s i => putTable s i) t

/-- Modelled from the spec (section 4.1, `lookup` restricted to its search):
the first table entry that is valid and carries the id. -/
def findActive (t : List Persona) (i : Nat) : Option Persona :=
  t.find? (fun p => p.pna_id == i && p.pna_valid)

/-- Modelled from the spec (section 4.1, `lookup`): find the first valid entry
carrying the id, atomically increment its refcount, and return the acquired
persona together with the updated table. -/
def lookupTable : List Persona → Nat → Option (Persona × List Persona)
  | [], _ => none
  | p :: rest, i =>
    if p.pna_id == i && p.pna_valid then
      some ({ p with pna_refcount := p.pna_refcount + 1 },
            { p with pna_refcount := p.pna_refcount + 1 } :: rest)
    else
      match lookupTable rest i with
      | none => none
      | some (q, rest1) => some (q, p :: rest1)

/-- Modelled from the spec: `Registry.lookup` lifted to the registry. -/
def persona_lookup (i : Nat) (reg : Registry) : Option (Persona × Registry) :=
  match lookupTable reg.table i with
  | none => none
  | some (q, t) => some (q, { reg with table := t })

/-- Modelled from the spec (section 4.1, `invalidate`): find the first valid
entry carrying the id; if absent or already invalid fail; otherwise atomically
set `valid := false` and return an acquired reference (refcount incremented). -/
def invalidateTable : List Persona → Nat → Option (Persona × List Persona)
  | [], _ => none
  | p :: rest, i =>
    if p.pna_id == i && p.pna_valid then
      some ({ p with pna_valid := false, pna_refcount := p.pna_refcount + 1 },
            { p with pna_valid := false, pna_refcount := p.pna_refcount + 1 } :: rest)
    else
      match invalidateTable rest i with
      | none => none
      | some (q, rest1) => some (q, p :: rest1)

/-- Modelled from the spec: `Registry.invalidate` lifted to the registry. -/
def persona_lookup_and_invalidate (i : Nat) (reg : Registry) :
    Option (Persona × Registry) :=
  match invalidateTable reg.table i with
  | none => none
  | some (q, t) => some (q, { reg with table := t })

/-- Modelled from the spec (section 4.1, `allocate`): fail with
`CapacityExceeded` when the table is full; a requested id other than the
"none" sentinel fails with `DuplicateId` when taken, otherwise is used as is;
the "none" sentinel asks for the next unused id from the cursor.  The new
persona enters the table with `refcount = 1` and `valid = true`. -/
def persona_alloc (gmax : Nat) (i : Nat) (login : List Nat) (ptype : Nat)
    (reg : Registry) : Except Nat (Persona × Registry) :=
  if gmax ≤ reg.table.length then .error ENOSPC
  else if i != PERSONA_ID_NONE && idTaken reg.table i then .error EEXIST
  else
    let newId := if i == PERSONA_ID_NONE
      then freshIdAux reg.table reg.nextId (reg.table.length + 1) else i
    let p : Persona :=
      { pna_id := newId, pna_type := ptype, pna_login := login,
        pna_gid := none, pna_groups := [], pna_gmuid := KAUTH_UID_NONE,
        pna_refcount := 1, pna_valid := true }
    .ok (p, { table := reg.table ++ [p], nextId := max reg.nextId (newId + 1) })

/-- Modelled from the spec (section 4.3, Set-Primary-Group): store the gid as
the persona's primary group; no validity range is enforced, so the operation
cannot fail. -/
def persona_set_gid (i gid : Nat) (reg : Registry) : Registry :=
  { reg with table := updateTable i (fun p => { p with pna_gid := some gid }) reg.table }

/-- Modelled from the spec (section 4.3, Set-Groups): fail with
`TooManyGroups` when the count exceeds the capacity 16; a zero resolution
identity is remapped to the "disabled" sentinel; the first `count` group ids
are stored. -/
def persona_set_groups (i : Nat) (groups : List Nat) (count : Nat) (gmuid : Nat)
    (reg : Registry) : Except Nat Registry :=
  if NGROUPS < count then .error EINVAL
  else
    let g := if gmuid == 0 then KAUTH_UID_NONE else gmuid
    let t := updateTable i
      (fun p => { p with pna_groups := groups.take count, pna_gmuid := g }) reg.table
    .ok { reg with table := t }

/-- Whether a table entry matches the find filters: currently valid, login
filter absent (empty) or equal, id filter the "none" sentinel or equal. -/
def personaMatch (loginF : List Nat) (idF : Nat) (p : Persona) : Bool :=
  p.pna_valid && (loginF.isEmpty || p.pna_login == loginF)
    && (idF == PERSONA_ID_NONE || p.pna_id == idF)

/-- Modelled from the spec (section 4.1, `find`): scan the table; each match
within the remaining capacity is acquired (refcount incremented) and its id
collected; matches beyond the capacity are counted but not acquired.  Returns
the updated table, the collected ids in table order, and the total match
count. -/
def findTable (loginF : List Nat) (idF : Nat) :
    List Persona → Nat → List Persona × List Nat × Nat
  | [], _ => ([], [], 0)
  | p :: rest, cap =>
    if personaMatch loginF idF p then
      match cap with
      | 0 =>
        let r := findTable loginF idF rest 0
        (p :: r.1, r.2.1, r.2.2 + 1)
      | c + 1 =>
        let r := findTable loginF idF rest c
        ({ p with pna_refcount := p.pna_refcount + 1 } :: r.1,
         p.pna_id :: r.2.1, r.2.2 + 1)
    else
      let r := findTable loginF idF rest cap
      (p :: r.1, r.2.1, r.2.2)

/-- Modelled from the spec: `Registry.find` lifted to the registry.  The spec
gives `find` no failure case, so the C error return is identically zero and
its `goto out` branch in the caller is vacuous. -/
def persona_find (loginF : List Nat) (idF : Nat) (cap : Nat) (reg : Registry) :
    Registry × List Nat × Nat :=
  let r := findTable loginF idF reg.table cap
  ({ reg with table := r.1 }, r.2.1, r.2.2)

/-- Outcomes of the boundary copies and of the external collaborators for one
syscall invocation: each `copyin` source is an `Option` (a fault reads
nothing), each `copyout` destination a success flag.  `infoRead` holds the
record bytes at `infop` (its version word is the record's version field, as in
the C memory they are the same bytes); `infoRead2Ok` is the outcome of the
second, full-record `copyin` of `kpersona_copyin`; `outVersionRead` is the
version word `kpersona_copyout` reads back from the destination record. -/
structure BoundaryEnv where
  issuser : Bool
  idRead : Option Nat
  infoRead : Option KPersonaInfo
  infoRead2Ok : Bool
  outVersionRead : Option Nat
  infoWriteOk : Bool
  idWriteOk : Bool
  idlenRead : Option Nat
  mallocOk : Bool
  idWriteOkAt : Nat → Bool
  idlenWriteOk : Bool
  currentPid : Nat
  procPersona : Nat → Option Nat

/-- `kpersona_copyin` (source lines 40-59): read the version word; a value
other than `PERSONA_INFO_V1` fails with `EINVAL`; then read the whole record
and force a NUL terminator at index `MAXLOGNAME` of the name array. -/
def kpersona_copyin (env : BoundaryEnv) : Except Nat KPersonaInfo :=
  match env.infoRead with
  | none => .error EFAULT
  | some kinfo =>
    if kinfo.persona_info_version != PERSONA_INFO_V1 then .error EINVAL
    else if !env.infoRead2Ok then .error EFAULT
    else .ok { kinfo with persona_name := kinfo.persona_name.set MAXLOGNAME 0 }

/-- `kpersona_copyout` (source lines 61-77): read the version word already at
the destination; a value other than `PERSONA_INFO_V1` fails with `EINVAL`;
then write the record.  The `ok` value is the record as transferred to user
memory. -/
def kpersona_copyout (kinfo : KPersonaInfo) (env : BoundaryEnv) :
    Except Nat KPersonaInfo :=
  match env.outVersionRead with
  | none => .error EFAULT
  | some v =>
    if v != PERSONA_INFO_V1 then .error EINVAL
    else if !env.infoWriteOk then .error EFAULT
    else .ok kinfo

/-- Result of `kpersona_alloc_syscall`: error code, final registry, the id
written to `idp` (if that copyout ran and succeeded), and the record written
back to `infop` (likewise). -/
structure AllocOut where
  err : Nat
  reg : Registry
  idWritten : Option Nat
  infoWritten : Option KPersonaInfo
  deriving Repr

/-- `kpersona_alloc_syscall` (source lines 80-143).  A requested persona id
equal to the "none" sentinel or to zero leaves the id at `PERSONA_ID_NONE`;
a zero `persona_gmuid` with a non-empty group list is remapped in the kernel
copy of the record to `KAUTH_UID_NONE` before `persona_set_groups` and before
the record is copied back.  Failures of group configuration or of the id
copyout release the allocation reference (`out_error`); a failure of the
final record copy-back returns its error without a release.
`persona_set_gid` cannot fail in the spec model, so its error branch is
vacuous. -/
def kpersona_alloc_syscall (gmax : Nat) (env : BoundaryEnv) (reg : Registry) :
    AllocOut :=
  if !env.issuser then ⟨EPERM, reg, none, none⟩
  else
    match kpersona_copyin env with
    | .error e => ⟨e, reg, none, none⟩
    | .ok kinfo0 =>
      let login := cstr kinfo0.persona_name
      let i := if kinfo0.persona_id != PERSONA_ID_NONE && kinfo0.persona_id != 0
        then kinfo0.persona_id else PERSONA_ID_NONE
      match persona_alloc gmax i login kinfo0.persona_type reg with
      | .error e => ⟨e, reg, none, none⟩
      | .ok pr =>
        let p := pr.1
        let reg1 := if kinfo0.persona_gid != 0
          then persona_set_gid p.pna_id kinfo0.persona_gid pr.2 else pr.2
        let kinfo := if 0 < kinfo0.persona_ngroups && kinfo0.persona_gmuid == 0
          then { kinfo0 with persona_gmuid := KAUTH_UID_NONE } else kinfo0
        let r2 : Except Nat Registry :=
          if 0 < kinfo.persona_ngroups then
            persona_set_groups p.pna_id kinfo.persona_groups kinfo.persona_ngroups
              kinfo.persona_gmuid reg1
          else .ok reg1
        match r2 with
        | .error e => ⟨e, persona_put p.pna_id reg1, none, none⟩
        | .ok reg2 =>
          if !env.idWriteOk then ⟨EFAULT, persona_put p.pna_id reg2, none, none⟩
          else
            match kpersona_copyout kinfo env with
            | .error e => ⟨e, reg2, some p.pna_id, none⟩
            | .ok w => ⟨0, reg2, some p.pna_id, some w⟩

/-- Result of `kpersona_dealloc_syscall`: error code and final registry. -/
structure DeallocOut where
  err : Nat
  reg : Registry
  deriving Repr, DecidableEq

/-- `kpersona_dealloc_syscall` (source lines 145-171): privilege check, read
the id, invalidate; a failed invalidation returns `ESRCH`; a successful one is
followed by exactly two releases (the lookup reference and the allocation
reference). -/
def kpersona_dealloc_syscall (env : BoundaryEnv) (reg : Registry) : DeallocOut :=
  if !env.issuser then ⟨EPERM, reg⟩
  else
    match env.idRead with
    | none => ⟨EFAULT, reg⟩
    | some i =>
      match persona_lookup_and_invalidate i reg with
      | none => ⟨ESRCH, reg⟩
      | some pr => ⟨0, persona_put pr.1.pna_id (persona_put pr.1.pna_id pr.2)⟩

/-- The `kpersona_info` snapshot built by the two info syscalls (source lines
211-225 and 253-263): version, id, type, primary group (the unset sentinel
when none), up to `NGROUPS` groups with their count, resolution identity, and
the login name copied into the `char[MAXLOGNAME + 1]` array. -/
def personaSnapshot (p : Persona) : KPersonaInfo :=
  { persona_info_version := PERSONA_INFO_V1
    persona_id := p.pna_id
    persona_type := p.pna_type
    persona_gid := p.pna_gid.getD KAUTH_GID_NONE
    persona_ngroups := min p.pna_groups.length NGROUPS
    persona_groups := p.pna_groups.take NGROUPS
    persona_gmuid := p.pna_gmuid
    persona_name := p.pna_login.take MAXLOGNAME ++ [0] }

/-- Result of the two info syscalls: error code, final registry, and the
record written to `infop` (if the copyout succeeded). -/
structure InfoOut where
  err : Nat
  reg : Registry
  infoWritten : Option KPersonaInfo
  deriving Repr

/-- `kpersona_info_syscall` (source lines 187-232): read the id, look the
persona up (acquiring a reference), build the snapshot, release the
reference, then copy the snapshot out. -/
def kpersona_info_syscall (env : BoundaryEnv) (reg : Registry) : InfoOut :=
  match env.idRead with
  | none => ⟨EFAULT, reg, none⟩
  | some i =>
    match persona_lookup i reg with
    | none => ⟨ESRCH, reg, none⟩
    | some pr =>
      let kinfo := personaSnapshot pr.1
      let reg1 := persona_put pr.1.pna_id pr.2
      match kpersona_copyout kinfo env with
      | .error e => ⟨e, reg1, none⟩
      | .ok w => ⟨0, reg1, some w⟩

/-- Modelled from the spec (section 6, current-owner resolution and section
4.2, Acquire-Persona-By-Owner): resolve the process to its adopted persona id
(an external mapping) and acquire that persona from the registry. -/
def persona_proc_get (env : BoundaryEnv) (pid : Nat) (reg : Registry) :
    Option (Persona × Registry) :=
  match env.procPersona pid with
  | none => none
  | some i => persona_lookup i reg

/-- `kpersona_pidinfo_syscall` (source lines 234-270): read the pid; a caller
that is neither privileged nor asking about itself fails with `EPERM`;
otherwise resolve the process's persona, build the snapshot, release, copy
out. -/
def kpersona_pidinfo_syscall (env : BoundaryEnv) (reg : Registry) : InfoOut :=
  match env.idRead with
  | none => ⟨EFAULT, reg, none⟩
  | some pid =>
    if !env.issuser && pid != env.currentPid then ⟨EPERM, reg, none⟩
    else
      match persona_proc_get env pid reg with
      | none => ⟨ESRCH, reg, none⟩
      | some pr =>
        let kinfo := personaSnapshot pr.1
        let reg1 := persona_put pr.1.pna_id pr.2
        match kpersona_copyout kinfo env with
        | .error e => ⟨e, reg1, none⟩
        | .ok w => ⟨0, reg1, some w⟩

/-- The per-entry copyout loop of `kpersona_find_syscall` (source lines
307-316): copy ids out one by one from index `i`; the first failing copyout
stops the loop with its error and skips every remaining entry.  Returns the
ids actually written and the loop's error code. -/
def copyIdsLoop (ok : Nat → Bool) : List Nat → Nat → List Nat × Nat
  | [], _ => ([], 0)
  | x :: rest, i =>
    if ok i then
      let r := copyIdsLoop ok rest (i + 1)
      (x :: r.1, r.2)
    else ([], EFAULT)

/-- Result of `kpersona_find_syscall`: error code, final registry, the ids
written to the caller's array, the ids whose references the search acquired
(a ghost observable: the filled slots of the kernel-side pointer array), and
the match count written back to `idlenp` (`none` if that final, error-ignored
copyout faulted). -/
structure FindOut where
  err : Nat
  reg : Registry
  idsWritten : List Nat
  acquired : List Nat
  reportedLen : Option Nat

/-- `kpersona_find_syscall` (source lines 272-328): read the requested length
and clamp it to `g_max_personas`; read the filter record; allocate the
pointer array when the clamped length is positive; search; copy out ids until
the first fault; release every filled slot exactly once; finally write the
total match count back (its own copyout error ignored).  `persona_find`
cannot fail in the spec model, so its error branch is vacuous; releases of
the zeroed, unfilled slots are the C `persona_put(NULL)` no-ops. -/
def kpersona_find_syscall (gmax : Nat) (env : BoundaryEnv) (reg : Registry) :
    FindOut :=
  match env.idlenRead with
  | none => ⟨EFAULT, reg, [], [], none⟩
  | some u0 =>
    let u_idlen := if gmax < u0 then gmax else u0
    match kpersona_copyin env with
    | .error e => ⟨e, reg, [], [], if env.idlenWriteOk then some 0 else none⟩
    | .ok kinfo =>
      if 0 < u_idlen && !env.mallocOk then
        ⟨ENOMEM, reg, [], [], if env.idlenWriteOk then some 0 else none⟩
      else
        let login := cstr kinfo.persona_name
        let fr := persona_find login kinfo.persona_id u_idlen reg
        let cp := copyIdsLoop env.idWriteOkAt fr.2.1 0
        ⟨cp.2, { fr.1 with table := putAll fr.2.1 fr.1.table },
         cp.1, fr.2.1, if env.idlenWriteOk then some fr.2.2 else none⟩

/-- The first table entry (valid or not) carrying the given id. -/
def findById (t : List Persona) (i : Nat) : Option Persona :=
  t.find? (fun p => p.pna_id == i)

lemma idTaken_eq_false {t : List Persona} {i : Nat} :
    idTaken t i = false ↔ ∀ p ∈ t, p.pna_id ≠ i := by
  simp [idTaken]

lemma putTable_of_not_taken {t : List Persona} {i : Nat}
    (h : idTaken t i = false) : putTable t i = t := by
  induction t with
  | nil => rfl
  | cons p rest ih =>
    rw [idTaken_eq_false] at h
    have hp : (p.pna_id == i) = false := by
      simpa using h p (by simp)
    have hrest : idTaken rest i = false := by
      rw [idTaken_eq_false]
      intro q hq
      exact h q (by simp [hq])
    simp [putTable, hp, ih hrest]

lemma updateTable_of_not_taken {t : List Persona} {i : Nat} {f : Persona → Persona}
    (h : idTaken t i = false) : updateTable i f t = t := by
  induction t with
  | nil => rfl
  | cons p rest ih =>
    rw [idTaken_eq_false] at h
    have hp : (p.pna_id == i) = false := by
      simpa using h p (by simp)
    have hrest : idTaken rest i = false := by
      rw [idTaken_eq_false]
      intro q hq
      exact h q (by simp [hq])
    simp [updateTable, hp, ih hrest]

lemma findById_of_not_taken {t : List Persona} {i : Nat}
    (h : idTaken t i = false) : findById t i = none := by
  rw [idTaken_eq_false] at h
  unfold findById
  rw [List.find?_eq_none]
  intro p hp
  simpa using h p hp

lemma invalidateTable_of_not_taken {t : List Persona} {i : Nat}
    (h : idTaken t i = false) : invalidateTable t i = none := by
  induction t with
  | nil => rfl
  | cons p rest ih =>
    rw [idTaken_eq_false] at h
    have hp : (p.pna_id == i) = false := by
      simpa using h p (by simp)
    have hrest : idTaken rest i = false := by
      rw [idTaken_eq_false]
      intro q hq
      exact h q (by simp [hq])
    simp [invalidateTable, hp, ih hrest]

lemma putTable_append_left {t : List Persona} {i : Nat} (l : List Persona)
    (h : idTaken t i = false) : putTable (t ++ l) i = t ++ putTable l i := by
  induction t with
  | nil => rfl
  | cons p rest ih =>
    rw [idTaken_eq_false] at h
    have hp : (p.pna_id == i) = false := by
      simpa using h p (by simp)
    have hrest : idTaken rest i = false := by
      rw [idTaken_eq_false]
      intro q hq
      exact h q (by simp [hq])
    simp [putTable, hp, ih hrest]

lemma updateTable_append_left {t : List Persona} {i : Nat} {f : Persona → Persona}
    (l : List Persona) (h : idTaken t i = false) :
    updateTable i f (t ++ l) = t ++ updateTable i f l := by
  induction t with
  | nil => rfl
  | cons p rest ih =>
    rw [idTaken_eq_false] at h
    have hp : (p.pna_id == i) = false := by
      simpa using h p (by simp)
    have hrest : idTaken rest i = false := by
      rw [idTaken_eq_false]
      intro q hq
      exact h q (by simp [hq])
    simp [updateTable, hp, ih hrest]

lemma findById_append_left {t : List Persona} {i : Nat} (l : List Persona)
    (h : idTaken t i = false) : findById (t ++ l) i = findById l i := by
  induction t with
  | nil => rfl
  | cons p rest ih =>
    rw [idTaken_eq_false] at h
    have hp : (p.pna_id == i) = false := by
      simpa using h p (by simp)
    have hrest : idTaken rest i = false := by
      rw [idTaken_eq_false]
      intro q hq
      exact h q (by simp [hq])
    simpa [findById, List.find?, hp] using ih hrest

lemma filter_ge_mono (t : List Persona) (c : Nat) :
    (t.filter fun p => c + 1 ≤ p.pna_id).length ≤
      (t.filter fun p => c ≤ p.pna_id).length := by
  induction t with
  | nil => simp
  | cons p rest ih =>
    by_cases h1 : c + 1 ≤ p.pna_id
    · have h0 : c ≤ p.pna_id := Nat.le_of_succ_le h1
      simp [List.filter_cons, h1, h0]
      omega
    · by_cases h0 : c ≤ p.pna_id
      · simp [List.filter_cons, h1, h0]
        omega
      · simp [List.filter_cons, h1, h0]
        exact ih

lemma filter_ge_strict {t : List Persona} {c : Nat}
    (h : ∃ p ∈ t, p.pna_id = c) :
    (t.filter fun p => c + 1 ≤ p.pna_id).length <
      (t.filter fun p => c ≤ p.pna_id).length := by
  induction t with
  | nil => simp at h
  | cons p rest ih =>
    rcases h with ⟨q, hq, hqc⟩
    rcases List.mem_cons.mp hq with hq | hq
    · have hpc : p.pna_id = c := by rw [← hq]; exact hqc
      have h1 : ¬ (c + 1 ≤ p.pna_id) := by omega
      have h0 : c ≤ p.pna_id := by omega
      simp [List.filter_cons, h1, h0]
      exact Nat.lt_succ_of_le (filter_ge_mono rest c)
    · have hrec := ih ⟨q, hq, hqc⟩
      by_cases h1 : c + 1 ≤ p.pna_id
      · have h0 : c ≤ p.pna_id := Nat.le_of_succ_le h1
        simp [List.filter_cons, h1, h0]
        omega
      · by_cases h0 : c ≤ p.pna_id
        · simp [List.filter_cons, h1, h0]
          omega
        · simp [List.filter_cons, h1, h0]
          exact hrec

lemma freshIdAux_not_taken (t : List Persona) :
    ∀ fuel c, (t.filter fun p => c ≤ p.pna_id).length < fuel →
      idTaken t (freshIdAux t c fuel) = false := by
  intro fuel
  induction fuel with
  | zero => intro c h; omega
  | succ n ih =>
    intro c h
    by_cases htk : idTaken t c = true
    · have hex : ∃ p ∈ t, p.pna_id = c := by
        simpa [idTaken] using htk
      have hlt := filter_ge_strict hex
      have : (t.filter fun p => c + 1 ≤ p.pna_id).length < n := by omega
      simpa [freshIdAux, htk] using ih (c + 1) this
    · have htk2 : idTaken t c = false := by
        simpa using htk
      simp [freshIdAux, htk2]

lemma freshId_not_taken (t : List Persona) (c : Nat) :
    idTaken t (freshIdAux t c (t.length + 1)) = false :=
  freshIdAux_not_taken t (t.length + 1) c
    (Nat.lt_of_le_of_lt (List.length_filter_le _ _) (Nat.lt_succ_self _))

/-- Characterization of a successful spec-modelled allocation: the table
grows by the new persona at the end, its id was not previously taken, it
starts at refcount 1 and valid, and an explicitly requested id (not the
"none" sentinel) is the id actually used. -/
lemma persona_alloc_ok {gmax i ptype : Nat} {login : List Nat} {reg : Registry}
    {p : Persona} {reg1 : Registry}
    (h : persona_alloc gmax i login ptype reg = .ok (p, reg1)) :
    reg1.table = reg.table ++ [p] ∧ idTaken reg.table p.pna_id = false ∧
      p.pna_refcount = 1 ∧ p.pna_valid = true ∧ p.pna_login = login ∧
      p.pna_gid = none ∧ (i ≠ PERSONA_ID_NONE → p.pna_id = i) := by
  unfold persona_alloc at h
  by_cases hcap : gmax ≤ reg.table.length
  · simp [hcap] at h
  · by_cases hid : i = PERSONA_ID_NONE
    · simp [hcap, hid] at h
      obtain ⟨hp, hreg⟩ := h
      refine ⟨by rw [← hreg, ← hp], ?_, by rw [← hp], by rw [← hp],
        by rw [← hp], by rw [← hp], fun hne => absurd hid hne⟩
      rw [← hp]
      exact freshId_not_taken reg.table reg.nextId
    · have hbne : (i != PERSONA_ID_NONE) = true := by
        simpa using hid
      by_cases htk : idTaken reg.table i = true
      · simp [hcap, hbne, htk] at h
      · have htk2 : idTaken reg.table i = false := by simpa using htk
        simp [hcap, hbne, htk2, hid] at h
        obtain ⟨hp, hreg⟩ := h
        exact ⟨by rw [← hreg, ← hp], by rw [← hp]; exact htk2, by rw [← hp],
          by rw [← hp], by rw [← hp], by rw [← hp], fun _ => by rw [← hp]⟩

lemma personaMatch_valid {loginF : List Nat} {idF : Nat} {p : Persona}
    (h : personaMatch loginF idF p = true) : p.pna_valid = true := by
  simp [personaMatch] at h
  exact h.1.1

lemma findTable_ids_length (loginF : List Nat) (idF : Nat) :
    ∀ (t : List Persona) (cap : Nat),
      (findTable loginF idF t cap).2.1.length ≤ cap := by
  intro t
  induction t with
  | nil => intro cap; simp [findTable]
  | cons p rest ih =>
    intro cap
    by_cases hm : personaMatch loginF idF p = true
    · cases cap with
      | zero => simpa [findTable, hm] using ih 0
      | succ c => simpa [findTable, hm] using ih c
    · have hm2 : personaMatch loginF idF p = false := by simpa using hm
      simpa [findTable, hm2] using ih cap

lemma findTable_count (loginF : List Nat) (idF : Nat) :
    ∀ (t : List Persona) (cap : Nat),
      (findTable loginF idF t cap).2.2 =
        (t.filter (personaMatch loginF idF)).length := by
  intro t
  induction t with
  | nil => intro cap; simp [findTable]
  | cons p rest ih =>
    intro cap
    by_cases hm : personaMatch loginF idF p = true
    · cases cap with
      | zero => simp [findTable, hm, List.filter_cons, ih 0]
      | succ c => simp [findTable, hm, List.filter_cons, ih c]
    · have hm2 : personaMatch loginF idF p = false := by simpa using hm
      simp [findTable, hm2, List.filter_cons, ih cap]

lemma findTable_ids_mem (loginF : List Nat) (idF : Nat) :
    ∀ (t : List Persona) (cap : Nat),
      ∀ x ∈ (findTable loginF idF t cap).2.1, x ∈ t.map Persona.pna_id := by
  intro t
  induction t with
  | nil => intro cap x hx; simp [findTable] at hx
  | cons p rest ih =>
    intro cap x hx
    by_cases hm : personaMatch loginF idF p = true
    · cases cap with
      | zero =>
        simp [findTable, hm] at hx
        simpa using Or.inr (by simpa using ih 0 x hx)
      | succ c =>
        simp [findTable, hm] at hx
        rcases hx with hx | hx
        · simp [hx]
        · simpa using Or.inr (by simpa using ih c x hx)
    · have hm2 : personaMatch loginF idF p = false := by simpa using hm
      simp [findTable, hm2] at hx
      simpa using Or.inr (by simpa using ih cap x hx)

lemma putAll_cons_skip {ids : List Nat} {p : Persona}
    (h : ∀ i ∈ ids, p.pna_id ≠ i) :
    ∀ t, putAll ids (p :: t) = p :: putAll ids t := by
  induction ids with
  | nil => intro t; rfl
  | cons i ids ih =>
    intro t
    have hpi : (p.pna_id == i) = false := by
      simpa using h i (by simp)
    have hrest : ∀ j ∈ ids, p.pna_id ≠ j := fun j hj => h j (by simp [hj])
    simp only [putAll, List.foldl_cons]
    rw [show putTable (p :: t) i = p :: putTable t i by simp [putTable, hpi]]
    exact ih hrest (putTable t i)

lemma putTable_cons_self {p : Persona} (hval : p.pna_valid = true)
    (t : List Persona) :
    putTable ({ p with pna_refcount := p.pna_refcount + 1 } :: t) p.pna_id =
      p :: t := by
  obtain ⟨pid, pty, plog, pgid, pgr, pgm, prc, pv⟩ := p
  simp at hval
  subst hval
  simp [putTable]

lemma findTable_putAll_restore (loginF : List Nat) (idF : Nat) :
    ∀ (t : List Persona), (t.map Persona.pna_id).Nodup →
      ∀ cap, putAll (findTable loginF idF t cap).2.1
        (findTable loginF idF t cap).1 = t := by
  intro t
  induction t with
  | nil => intro _ cap; simp [findTable, putAll]
  | cons p rest ih =>
    intro hnd cap
    have hnd1 : (rest.map Persona.pna_id).Nodup := by
      simpa using (List.nodup_cons.mp (by simpa using hnd)).2
    have hnotin : p.pna_id ∉ rest.map Persona.pna_id :=
      (List.nodup_cons.mp (by simpa using hnd)).1
    by_cases hm : personaMatch loginF idF p = true
    · cases cap with
      | zero =>
        have hskip : ∀ i ∈ (findTable loginF idF rest 0).2.1, p.pna_id ≠ i := by
          intro i hi hEq
          exact hnotin (hEq ▸ findTable_ids_mem loginF idF rest 0 i hi)
        have hstep : findTable loginF idF (p :: rest) 0 =
            (p :: (findTable loginF idF rest 0).1,
             (findTable loginF idF rest 0).2.1,
             (findTable loginF idF rest 0).2.2 + 1) := by
          simp [findTable, hm]
        rw [hstep]
        exact (putAll_cons_skip hskip _).trans (by rw [ih hnd1 0])
      | succ c =>
        have hskip : ∀ i ∈ (findTable loginF idF rest c).2.1, p.pna_id ≠ i := by
          intro i hi hEq
          exact hnotin (hEq ▸ findTable_ids_mem loginF idF rest c i hi)
        have hval : p.pna_valid = true := personaMatch_valid hm
        have hstep : findTable loginF idF (p :: rest) (c + 1) =
            ({ p with pna_refcount := p.pna_refcount + 1 } ::
               (findTable loginF idF rest c).1,
             p.pna_id :: (findTable loginF idF rest c).2.1,
             (findTable loginF idF rest c).2.2 + 1) := by
          simp [findTable, hm]
        rw [hstep]
        simp only [putAll, List.foldl_cons]
        rw [putTable_cons_self hval]
        exact (putAll_cons_skip hskip _).trans (by rw [ih hnd1 c])
    · have hm2 : personaMatch loginF idF p = false := by simpa using hm
      have hskip : ∀ i ∈ (findTable loginF idF rest cap).2.1, p.pna_id ≠ i := by
        intro i hi hEq
        exact hnotin (hEq ▸ findTable_ids_mem loginF idF rest cap i hi)
      have hstep : findTable loginF idF (p :: rest) cap =
          (p :: (findTable loginF idF rest cap).1,
           (findTable loginF idF rest cap).2.1,
           (findTable loginF idF rest cap).2.2) := by
        simp [findTable, hm2]
      rw [hstep]
      exact (putAll_cons_skip hskip _).trans (by rw [ih hnd1 cap])

lemma copyIdsLoop_length (ok : Nat → Bool) :
    ∀ (ids : List Nat) (i : Nat),
      (copyIdsLoop ok ids i).1.length ≤ ids.length := by
  intro ids
  induction ids with
  | nil => intro i; simp [copyIdsLoop]
  | cons x rest ih =>
    intro i
    by_cases hok : ok i = true
    · simpa [copyIdsLoop, hok] using ih (i + 1)
    · have hok2 : ok i = false := by simpa using hok
      simp [copyIdsLoop, hok2]

lemma copyIdsLoop_fail (ok : Nat → Bool) :
    ∀ (ids : List Nat) (i j : Nat), j < ids.length → ok (i + j) = false →
      (copyIdsLoop ok ids i).2 ≠ 0 ∧ (copyIdsLoop ok ids i).1.length ≤ j := by
  intro ids
  induction ids with
  | nil => intro i j hj; simp at hj
  | cons x rest ih =>
    intro i j hj hok
    cases j with
    | zero =>
      have hoki : ok i = false := by simpa using hok
      simp [copyIdsLoop, hoki, EFAULT]
    | succ j1 =>
      by_cases hoki : ok i = true
      · have hrec := ih (i + 1) j1 (by simpa using Nat.lt_of_succ_lt_succ hj)
          (by have : i + 1 + j1 = i + (j1 + 1) := by omega
              rw [this]; exact hok)
        simp [copyIdsLoop, hoki]
        exact ⟨hrec.1, hrec.2⟩
      · have hoki2 : ok i = false := by simpa using hoki
        simp [copyIdsLoop, hoki2, EFAULT]

lemma findActive_some {t : List Persona} {i : Nat} {p : Persona}
    (h : findActive t i = some p) :
    p.pna_id = i ∧ p.pna_valid = true ∧ p ∈ t := by
  have hm := List.mem_of_find?_eq_some h
  have hp := List.find?_some h
  simp at hp
  exact ⟨hp.1, hp.2, hm⟩

lemma invalidateTable_eq_none_iff (t : List Persona) (i : Nat) :
    invalidateTable t i = none ↔ findActive t i = none := by
  induction t with
  | nil => simp [invalidateTable, findActive]
  | cons q rest ih =>
    by_cases hg : (q.pna_id == i && q.pna_valid) = true
    · constructor
      · intro h
        simp [invalidateTable, hg] at h
      · intro h
        simp [findActive, List.find?_cons, hg] at h
    · have hg2 : (q.pna_id == i && q.pna_valid) = false := by simpa using hg
      rw [show findActive (q :: rest) i = findActive rest i by
        simp [findActive, List.find?_cons, hg2]]
      constructor
      · intro h
        simp only [invalidateTable, hg2, Bool.false_eq_true, if_false] at h
        rcases hrec : invalidateTable rest i with _ | pr
        · exact ih.mp hrec
        · rw [hrec] at h
          simp at h
      · intro h
        have := ih.mpr h
        simp [invalidateTable, hg2, this]

lemma dealloc_success {t : List Persona} {i : Nat} {p : Persona}
    (hnd : (t.map Persona.pna_id).Nodup) (hfind : findActive t i = some p) :
    ∃ t1, invalidateTable t i =
        some ({ p with pna_valid := false, pna_refcount := p.pna_refcount + 1 }, t1) ∧
      p.pna_id = i ∧
      (p.pna_refcount = 1 → findById (putTable (putTable t1 i) i) i = none) ∧
      (2 ≤ p.pna_refcount → findById (putTable (putTable t1 i) i) i =
        some { p with pna_valid := false, pna_refcount := p.pna_refcount - 1 }) := by
  induction t with
  | nil => simp [findActive] at hfind
  | cons q rest ih =>
    have hnd1 : (rest.map Persona.pna_id).Nodup := by
      simpa using (List.nodup_cons.mp (by simpa using hnd)).2
    have hnotin : q.pna_id ∉ rest.map Persona.pna_id :=
      (List.nodup_cons.mp (by simpa using hnd)).1
    by_cases hg : (q.pna_id == i && q.pna_valid) = true
    · have hpq : q = p := by
        have hh : findActive (q :: rest) i = some q := by
          simp [findActive, List.find?_cons, hg]
        rw [hh] at hfind
        exact Option.some.inj hfind
      subst hpq
      have hg3 := hg
      simp only [Bool.and_eq_true, beq_iff_eq] at hg3
      have hrest : idTaken rest i = false := by
        rw [idTaken_eq_false]
        intro r hr he
        exact hnotin (by rw [hg3.1, ← he]; exact List.mem_map_of_mem _ hr)
      obtain ⟨qid, qty, qlog, qgid, qgr, qgm, qrc, qv⟩ := q
      obtain ⟨hqi, hqv⟩ := hg3
      simp only at hqi hqv
      subst hqi
      subst hqv
      refine ⟨⟨qid, qty, qlog, qgid, qgr, qgm, qrc + 1, false⟩ :: rest,
        by simp [invalidateTable], rfl, ?_, ?_⟩
      · intro hrc
        simp only at hrc
        subst hrc
        simp [putTable, findById_of_not_taken hrest]
      · intro hrc
        simp only at hrc
        have hne : ¬ (qrc = 0) := by omega
        have hne1 : ¬ (qrc - 1 = 0) := by omega
        simp [putTable, hne, hne1, findById, List.find?_cons]
    · have hg2 : (q.pna_id == i && q.pna_valid) = false := by simpa using hg
      have hfind1 : findActive rest i = some p := by
        rw [show findActive (q :: rest) i = findActive rest i by
          simp [findActive, List.find?_cons, hg2]] at hfind
        exact hfind
      obtain ⟨t1, hinv, hpi, h1, h2⟩ := ih hnd1 hfind1
      have hmem : p ∈ rest := (findActive_some hfind1).2.2
      have hqi : q.pna_id ≠ i := by
        intro he
        exact hnotin (by rw [he, ← hpi]; exact List.mem_map_of_mem _ hmem)
      have hqb : (q.pna_id == i) = false := by simpa using hqi
      refine ⟨q :: t1, ?_, hpi, ?_, ?_⟩
      · simp [invalidateTable, hg2, hinv]
      · intro hrc
        have := h1 hrc
        simpa [putTable, hqb, findById, List.find?_cons] using this
      · intro hrc
        have := h2 hrc
        simpa [putTable, hqb, findById, List.find?_cons] using this

/-- C1: For every successful Deallocate-Persona(id) call, the persona with
that id is first atomically invalidated and then released exactly twice (once
for the reference returned by the invalidation lookup, once for the
registry's allocation-time reference): starting from an allocation-time
refcount of 1 the entry is gone afterwards, and from a refcount of n ≥ 2 it
remains, invalid, at n - 1 (the two releases net out against the one
reference the invalidation acquired).  If no active persona with that id
exists, the call fails with `ESRCH` and the registry is untouched (no
release). -/
theorem C1_dealloc_two_releases (env : BoundaryEnv) (reg : Registry) (i : Nat)
    (hsu : env.issuser = true) (hid : env.idRead = some i)
    (hnd : (reg.table.map Persona.pna_id).Nodup) :
    (findActive reg.table i = none →
      kpersona_dealloc_syscall env reg = ⟨ESRCH, reg⟩) ∧
    (∀ p, findActive reg.table i = some p →
      (kpersona_dealloc_syscall env reg).err = 0 ∧
      (p.pna_refcount = 1 →
        findById (kpersona_dealloc_syscall env reg).reg.table i = none) ∧
      (2 ≤ p.pna_refcount →
        findById (kpersona_dealloc_syscall env reg).reg.table i =
          some { p with pna_valid := false,
                        pna_refcount := p.pna_refcount - 1 })) := by
  constructor
  · intro hnone
    have hi : invalidateTable reg.table i = none :=
      (invalidateTable_eq_none_iff _ _).mpr hnone
    simp [kpersona_dealloc_syscall, hsu, hid, persona_lookup_and_invalidate, hi]
  · intro p hp
    obtain ⟨t1, hinv, hpi, h1, h2⟩ := dealloc_success hnd hp
    have hres : kpersona_dealloc_syscall env reg =
        ⟨0, persona_put p.pna_id (persona_put p.pna_id { reg with table := t1 })⟩ := by
      simp [kpersona_dealloc_syscall, hsu, hid, persona_lookup_and_invalidate, hinv]
    rw [hres]
    refine ⟨rfl, ?_, ?_⟩
    · intro hrc
      simpa [persona_put, hpi] using h1 hrc
    · intro hrc
      simpa [persona_put, hpi] using h2 hrc

/-- Fixture for the C1 witness: a privileged caller deallocating id 7. -/
def envC1 : BoundaryEnv :=
  ⟨true, some 7, none, true, none, true, true, none, true, fun _ => true, true, 0,
   fun _ => none⟩

/-- Fixture for the C1 witness: one active persona, id 7, refcount 1. -/
def regC1 : Registry :=
  ⟨[⟨7, 2, [97], none, [], KAUTH_UID_NONE, 1, true⟩], 501⟩

theorem C1_dealloc_two_releases_w :
    envC1.issuser = true ∧ envC1.idRead = some 7 ∧
      (regC1.table.map Persona.pna_id).Nodup ∧
      ((findActive regC1.table 7 = none →
          kpersona_dealloc_syscall envC1 regC1 = ⟨ESRCH, regC1⟩) ∧
       (∀ p, findActive regC1.table 7 = some p →
          (kpersona_dealloc_syscall envC1 regC1).err = 0 ∧
          (p.pna_refcount = 1 →
            findById (kpersona_dealloc_syscall envC1 regC1).reg.table 7 = none) ∧
          (2 ≤ p.pna_refcount →
            findById (kpersona_dealloc_syscall envC1 regC1).reg.table 7 =
              some { p with pna_valid := false,
                            pna_refcount := p.pna_refcount - 1 }))) :=
  ⟨rfl, rfl, by decide,
   C1_dealloc_two_releases envC1 regC1 7 rfl rfl (by decide)⟩

lemma updateTable_fresh_tail {t : List Persona} {i : Nat} {p : Persona}
    (h : idTaken t i = false) (hpi : p.pna_id = i) (f : Persona → Persona) :
    updateTable i f (t ++ [p]) = t ++ [f p] := by
  rw [updateTable_append_left _ h]
  simp [updateTable, hpi]

lemma put_fresh_tail {t : List Persona} {i : Nat} {q : Persona}
    (h : idTaken t i = false) (hqi : q.pna_id = i) (hrc : q.pna_refcount = 1)
    (hv : q.pna_valid = true) :
    findById (putTable (t ++ [q]) i) i = some { q with pna_refcount := 0 } := by
  rw [putTable_append_left _ h]
  have hput : putTable [q] i = [{ q with pna_refcount := 0 }] := by
    simp [putTable, hqi, hv, hrc]
  rw [hput, findById_append_left _ h]
  simp [findById, List.find?_cons, hqi]

lemma set_groups_ok {count : Nat} (i : Nat) (groups : List Nat) (g : Nat)
    (h : count ≤ NGROUPS) (r : Registry) :
    persona_set_groups i groups count g r =
      .ok ⟨updateTable i
        (fun p => { p with pna_groups := groups.take count,
                           pna_gmuid := if g == 0 then KAUTH_UID_NONE else g })
        r.table, r.nextId⟩ := by
  simp [persona_set_groups, Nat.not_lt.mpr h]

lemma gid_stage_shape {reg reg1 : Registry} {p : Persona}
    (htab : reg1.table = reg.table ++ [p])
    (hfree : idTaken reg.table p.pna_id = false) (useGid : Bool) (g : Nat) :
    ∃ p2, (if useGid then persona_set_gid p.pna_id g reg1 else reg1).table =
        reg.table ++ [p2] ∧ p2.pna_id = p.pna_id ∧
        p2.pna_refcount = p.pna_refcount ∧ p2.pna_valid = p.pna_valid := by
  cases useGid with
  | false => exact ⟨p, by simp [htab], rfl, rfl, rfl⟩
  | true =>
    refine ⟨{ p with pna_gid := some g }, ?_, by simp, by simp, by simp⟩
    simp only [if_true, persona_set_gid, htab]
    rw [updateTable_fresh_tail hfree rfl]

/-- C2 counterexample fixtures: a privileged allocation where everything
succeeds except the final record copy-back (`kpersona_copyout` fails). -/
def infoC2 : KPersonaInfo := ⟨1, 0, 5, 0, 0, [], 0, [0]⟩

def envC2 : BoundaryEnv :=
  ⟨true, none, some infoC2, true, some PERSONA_INFO_V1, false, true, none, true,
   fun _ => true, true, 0, fun _ => none⟩

def regC2 : Registry := ⟨[], 501⟩

/-- C2 counterexample: the registry entry was created and a later step (the
record copy back to the caller) failed, yet the call propagates the error
with the persona still in the registry holding the allocation-time reference
(refcount 1).  This refutes "the allocator's reference is released before
the error is propagated" for the final copy-back failure. -/
theorem C2_counterexample :
    (kpersona_alloc_syscall 200 envC2 regC2).err = EFAULT ∧
    (kpersona_alloc_syscall 200 envC2 regC2).reg.table =
      [⟨501, 5, [], none, [], KAUTH_UID_NONE, 1, true⟩] := by
  constructor
  · rfl
  · rfl

/-- C2 amended: for every Allocate-Persona call in which the registry entry
was created and then either the supplementary-group configuration fails or
the copy-out of the persona id fails, the allocator's reference is released
before the error is propagated (the persona's refcount drops to 0); a
failure of the final record copy back to the caller, however, propagates the
error without that release (see the counterexample). -/
theorem C2_release_on_config_or_idcopy_failure
    (gmax : Nat) (env : BoundaryEnv) (reg : Registry) (kinfo : KPersonaInfo)
    (p : Persona) (reg1 : Registry)
    (hsu : env.issuser = true)
    (hin : kpersona_copyin env = .ok kinfo)
    (halloc : persona_alloc gmax
        (if kinfo.persona_id != PERSONA_ID_NONE && kinfo.persona_id != 0
         then kinfo.persona_id else PERSONA_ID_NONE)
        (cstr kinfo.persona_name) kinfo.persona_type reg = .ok (p, reg1))
    (hfail : NGROUPS < kinfo.persona_ngroups ∨
      (kinfo.persona_ngroups ≤ NGROUPS ∧ env.idWriteOk = false)) :
    (kpersona_alloc_syscall gmax env reg).err ≠ 0 ∧
    ∃ q, findById (kpersona_alloc_syscall gmax env reg).reg.table p.pna_id =
        some q ∧ q.pna_refcount = 0 := by
  obtain ⟨htab, hfree, hrc, hval, _, _, _⟩ := persona_alloc_ok halloc
  have hsu2 : (!env.issuser) = false := by simp [hsu]
  obtain ⟨p2, ht2, hp2i, hp2rc, hp2v⟩ :=
    gid_stage_shape htab hfree (kinfo.persona_gid != 0) kinfo.persona_gid
  simp only [bne_iff_ne, ne_eq, ite_not] at ht2
  rcases hfail with hbig | ⟨hle, hwid⟩
  · -- the group-configuration step fails with TooManyGroups
    have hng : 0 < kinfo.persona_ngroups := lt_of_le_of_lt (Nat.zero_le _) hbig
    have hsg : ∀ g r, persona_set_groups p.pna_id kinfo.persona_groups
        kinfo.persona_ngroups g r = Except.error (α := Registry) EINVAL := by
      intro g r
      simp [persona_set_groups, hbig]
    have hstep : (kpersona_alloc_syscall gmax env reg).err = EINVAL ∧
        (kpersona_alloc_syscall gmax env reg).reg.table =
          putTable (reg.table ++ [p2]) p.pna_id := by
      by_cases hgm : (kinfo.persona_gmuid == 0) = true
      · constructor
        all_goals
          simp only [kpersona_alloc_syscall, hsu2, Bool.false_eq_true, if_false,
            hin, halloc]
          simp [hng, hgm, hsg, persona_put, ht2]
      · have hgm2 : (kinfo.persona_gmuid == 0) = false := by simpa using hgm
        constructor
        all_goals
          simp only [kpersona_alloc_syscall, hsu2, Bool.false_eq_true, if_false,
            hin, halloc]
          simp [hng, hgm2, hsg, persona_put, ht2]
    refine ⟨by rw [hstep.1]; simp [EINVAL], ⟨{ p2 with pna_refcount := 0 }, ?_, rfl⟩⟩
    rw [hstep.2]
    exact put_fresh_tail hfree hp2i (by rw [hp2rc, hrc]) (by rw [hp2v, hval])
  · -- group configuration succeeds (or is skipped) and the id copy-out fails
    have hwid2 : (!env.idWriteOk) = true := by simp [hwid]
    by_cases hng : (0 < kinfo.persona_ngroups)
    · have hup : ∀ gm, updateTable p.pna_id
          (fun q => { q with
            pna_groups := kinfo.persona_groups.take kinfo.persona_ngroups,
            pna_gmuid := gm })
          (reg.table ++ [p2]) =
          reg.table ++ [{ p2 with
            pna_groups := kinfo.persona_groups.take kinfo.persona_ngroups,
            pna_gmuid := gm }] := by
        intro gm
        exact updateTable_fresh_tail hfree hp2i _
      have hstep : ∃ gm, (kpersona_alloc_syscall gmax env reg).err = EFAULT ∧
          (kpersona_alloc_syscall gmax env reg).reg.table =
            putTable (reg.table ++ [{ p2 with
              pna_groups := kinfo.persona_groups.take kinfo.persona_ngroups,
              pna_gmuid := gm }]) p.pna_id := by
        by_cases hgm : (kinfo.persona_gmuid == 0) = true
        · refine ⟨KAUTH_UID_NONE, ?_, ?_⟩
          all_goals
            simp only [kpersona_alloc_syscall, hsu2, Bool.false_eq_true, if_false,
              hin, halloc]
            simp [hng, hgm, set_groups_ok p.pna_id kinfo.persona_groups _ hle,
              hwid2, persona_put, ht2, hup KAUTH_UID_NONE]
        · have hgm2 : (kinfo.persona_gmuid == 0) = false := by simpa using hgm
          refine ⟨kinfo.persona_gmuid, ?_, ?_⟩
          all_goals
            simp only [kpersona_alloc_syscall, hsu2, Bool.false_eq_true, if_false,
              hin, halloc]
            simp [hng, hgm2, set_groups_ok p.pna_id kinfo.persona_groups _ hle,
              hwid2, persona_put, ht2, hup kinfo.persona_gmuid]
      obtain ⟨gm, herr, htb⟩ := hstep
      refine ⟨by rw [herr]; simp [EFAULT],
        ⟨{ p2 with pna_groups := kinfo.persona_groups.take kinfo.persona_ngroups,
                   pna_gmuid := gm, pna_refcount := 0 }, ?_, rfl⟩⟩
      rw [htb]
      exact put_fresh_tail hfree (by simpa using hp2i)
        (by simpa using hp2rc.trans hrc) (by simpa using hp2v.trans hval)
    · have hng2 : ¬ (0 < kinfo.persona_ngroups) := hng
      have hstep : (kpersona_alloc_syscall gmax env reg).err = EFAULT ∧
          (kpersona_alloc_syscall gmax env reg).reg.table =
            putTable (reg.table ++ [p2]) p.pna_id := by
        constructor
        all_goals
          simp only [kpersona_alloc_syscall, hsu2, Bool.false_eq_true, if_false,
            hin, halloc]
          simp [hng2, hwid2, persona_put, ht2]
      refine ⟨by rw [hstep.1]; simp [EFAULT], ⟨{ p2 with pna_refcount := 0 }, ?_, rfl⟩⟩
      rw [hstep.2]
      exact put_fresh_tail hfree hp2i (by rw [hp2rc, hrc]) (by rw [hp2v, hval])

/-- C2 witness fixtures: a privileged allocation whose supplementary-group
list has 17 entries, so the group-configuration step fails. -/
def infoC2w : KPersonaInfo := ⟨1, 0, 5, 0, 17, List.replicate 17 9, 7, [0]⟩

def envC2w : BoundaryEnv :=
  ⟨true, none, some infoC2w, true, some PERSONA_INFO_V1, true, true, none, true,
   fun _ => true, true, 0, fun _ => none⟩

def regC2w : Registry := ⟨[], 501⟩

def pC2w : Persona := ⟨501, 5, [], none, [], KAUTH_UID_NONE, 1, true⟩

theorem C2_release_on_config_or_idcopy_failure_w :
    envC2w.issuser = true ∧
    kpersona_copyin envC2w = .ok infoC2w ∧
    persona_alloc 200
      (if infoC2w.persona_id != PERSONA_ID_NONE && infoC2w.persona_id != 0
       then infoC2w.persona_id else PERSONA_ID_NONE)
      (cstr infoC2w.persona_name) infoC2w.persona_type regC2w =
      .ok (pC2w, ⟨[pC2w], 502⟩) ∧
    NGROUPS < infoC2w.persona_ngroups ∧
    ((kpersona_alloc_syscall 200 envC2w regC2w).err ≠ 0 ∧
     ∃ q, findById (kpersona_alloc_syscall 200 envC2w regC2w).reg.table
         pC2w.pna_id = some q ∧ q.pna_refcount = 0) :=
  ⟨rfl, rfl, rfl, by decide,
   C2_release_on_config_or_idcopy_failure 200 envC2w regC2w infoC2w pC2w
     ⟨[pC2w], 502⟩ rfl rfl rfl (Or.inl (by decide))⟩

lemma find_syscall_main {u0 : Nat} {kinfo : KPersonaInfo} (gmax : Nat)
    (env : BoundaryEnv) (reg : Registry)
    (h1 : env.idlenRead = some u0) (h2 : kpersona_copyin env = .ok kinfo)
    (h3 : (decide (0 < (if gmax < u0 then gmax else u0)) && !env.mallocOk) = false) :
    kpersona_find_syscall gmax env reg =
      ⟨(copyIdsLoop env.idWriteOkAt
          (findTable (cstr kinfo.persona_name) kinfo.persona_id reg.table
            (if gmax < u0 then gmax else u0)).2.1 0).2,
       ⟨putAll
          (findTable (cstr kinfo.persona_name) kinfo.persona_id reg.table
            (if gmax < u0 then gmax else u0)).2.1
          (findTable (cstr kinfo.persona_name) kinfo.persona_id reg.table
            (if gmax < u0 then gmax else u0)).1, reg.nextId⟩,
       (copyIdsLoop env.idWriteOkAt
          (findTable (cstr kinfo.persona_name) kinfo.persona_id reg.table
            (if gmax < u0 then gmax else u0)).2.1 0).1,
       (findTable (cstr kinfo.persona_name) kinfo.persona_id reg.table
          (if gmax < u0 then gmax else u0)).2.1,
       if env.idlenWriteOk then
         some (findTable (cstr kinfo.persona_name) kinfo.persona_id reg.table
           (if gmax < u0 then gmax else u0)).2.2
       else none⟩ := by
  simp [kpersona_find_syscall, h1, h2, h3, persona_find]

lemma clamp_le (gmax u0 : Nat) : (if gmax < u0 then gmax else u0) ≤ gmax := by
  by_cases h : gmax < u0
  · simp [h]
  · simp [h]
    omega

lemma find_syscall_bounds (gmax : Nat) (env : BoundaryEnv) (reg : Registry) :
    (kpersona_find_syscall gmax env reg).acquired.length ≤ gmax ∧
    (kpersona_find_syscall gmax env reg).idsWritten.length ≤ gmax := by
  rcases h1 : env.idlenRead with _ | u0
  · simp [kpersona_find_syscall, h1]
  · rcases h2 : kpersona_copyin env with e | kinfo
    · simp [kpersona_find_syscall, h1, h2]
    · by_cases h3 : (decide (0 < (if gmax < u0 then gmax else u0)) &&
          !env.mallocOk) = true
      · simp [kpersona_find_syscall, h1, h2, h3]
      · have h3b : (decide (0 < (if gmax < u0 then gmax else u0)) &&
            !env.mallocOk) = false := by simpa using h3
        rw [find_syscall_main gmax env reg h1 h2 h3b]
        have hids := findTable_ids_length (cstr kinfo.persona_name)
          kinfo.persona_id reg.table (if gmax < u0 then gmax else u0)
        have hcap := clamp_le gmax u0
        refine ⟨le_trans hids hcap, ?_⟩
        exact le_trans (copyIdsLoop_length env.idWriteOkAt _ 0) (le_trans hids hcap)

/-- C3: For every Find-Personas call, the final registry equals the initial
one — every reference the search acquired is released exactly once before
returning — and whenever the copy-out of some entry's id fails, the call
returns a nonzero error having written only the ids of entries before the
first failing index (the remaining iterations are skipped). -/
theorem C3_find_copyout_abort_releases_all (gmax : Nat) (env : BoundaryEnv)
    (reg : Registry) (hnd : (reg.table.map Persona.pna_id).Nodup) :
    (kpersona_find_syscall gmax env reg).reg = reg ∧
    ∀ j, j < (kpersona_find_syscall gmax env reg).acquired.length →
      env.idWriteOkAt j = false →
      (kpersona_find_syscall gmax env reg).err ≠ 0 ∧
      (kpersona_find_syscall gmax env reg).idsWritten.length ≤ j := by
  rcases h1 : env.idlenRead with _ | u0
  · refine ⟨by simp [kpersona_find_syscall, h1], ?_⟩
    intro j hj hok
    simp [kpersona_find_syscall, h1] at hj
  · rcases h2 : kpersona_copyin env with e | kinfo
    · refine ⟨by simp [kpersona_find_syscall, h1, h2], ?_⟩
      intro j hj hok
      simp [kpersona_find_syscall, h1, h2] at hj
    · by_cases h3 : (decide (0 < (if gmax < u0 then gmax else u0)) &&
          !env.mallocOk) = true
      · refine ⟨by simp [kpersona_find_syscall, h1, h2, h3], ?_⟩
        intro j hj hok
        simp [kpersona_find_syscall, h1, h2, h3] at hj
      · have h3b : (decide (0 < (if gmax < u0 then gmax else u0)) &&
            !env.mallocOk) = false := by simpa using h3
        rw [find_syscall_main gmax env reg h1 h2 h3b]
        constructor
        · show Registry.mk _ reg.nextId = reg
          rw [findTable_putAll_restore (cstr kinfo.persona_name) kinfo.persona_id
            reg.table hnd (if gmax < u0 then gmax else u0)]
        · intro j hj hok
          exact copyIdsLoop_fail env.idWriteOkAt _ 0 j hj (by simpa using hok)

/-- C3 witness fixtures: a find over two active personas named "a" whose
first per-entry id copy-out faults. -/
def infoC3 : KPersonaInfo := ⟨1, PERSONA_ID_NONE, 0, 0, 0, [], 0, [97, 0]⟩

def envC3 : BoundaryEnv :=
  ⟨false, none, some infoC3, true, none, true, true, some 5, true,
   fun _ => false, true, 0, fun _ => none⟩

def regC3 : Registry :=
  ⟨[⟨7, 2, [97], none, [], KAUTH_UID_NONE, 1, true⟩,
    ⟨8, 2, [97], none, [], KAUTH_UID_NONE, 3, true⟩], 501⟩

theorem C3_find_copyout_abort_releases_all_w :
    (regC3.table.map Persona.pna_id).Nodup ∧
    ((kpersona_find_syscall 200 envC3 regC3).reg = regC3 ∧
     ∀ j, j < (kpersona_find_syscall 200 envC3 regC3).acquired.length →
       envC3.idWriteOkAt j = false →
       (kpersona_find_syscall 200 envC3 regC3).err ≠ 0 ∧
       (kpersona_find_syscall 200 envC3 regC3).idsWritten.length ≤ j) :=
  ⟨by decide, C3_find_copyout_abort_releases_all 200 envC3 regC3 (by decide)⟩

/-- C4: For every Find-Personas call (that reaches the search and whose final
length copy-out succeeds), at most the caller-requested number of ids is
copied out, while the count written back to the caller is the total number of
matching active personas in the registry, which may exceed the number of ids
returned. -/
theorem C4_find_reports_total_matches (gmax u0 : Nat) (env : BoundaryEnv)
    (reg : Registry) (kinfo : KPersonaInfo)
    (h1 : env.idlenRead = some u0) (h2 : kpersona_copyin env = .ok kinfo)
    (h3 : env.mallocOk = true) (h4 : env.idlenWriteOk = true) :
    (kpersona_find_syscall gmax env reg).idsWritten.length ≤ u0 ∧
    (kpersona_find_syscall gmax env reg).reportedLen =
      some ((reg.table.filter
        (personaMatch (cstr kinfo.persona_name) kinfo.persona_id)).length) := by
  have h3b : (decide (0 < (if gmax < u0 then gmax else u0)) &&
      !env.mallocOk) = false := by simp [h3]
  rw [find_syscall_main gmax env reg h1 h2 h3b]
  constructor
  · have hids := findTable_ids_length (cstr kinfo.persona_name)
      kinfo.persona_id reg.table (if gmax < u0 then gmax else u0)
    have hcap : (if gmax < u0 then gmax else u0) ≤ u0 := by
      by_cases h : gmax < u0
      · simp [h]
        omega
      · simp [h]
    exact le_trans (copyIdsLoop_length env.idWriteOkAt _ 0) (le_trans hids hcap)
  · simp [h4, findTable_count]

/-- C4 witness fixtures: limit 1 with two matching personas: one id is
returned, the reported count is 2. -/
def infoC4 : KPersonaInfo := ⟨1, PERSONA_ID_NONE, 0, 0, 0, [], 0, [97, 0]⟩

def envC4 : BoundaryEnv :=
  ⟨false, none, some infoC4, true, none, true, true, some 1, true,
   fun _ => true, true, 0, fun _ => none⟩

def regC4 : Registry :=
  ⟨[⟨7, 2, [97], none, [], KAUTH_UID_NONE, 1, true⟩,
    ⟨8, 2, [97], none, [], KAUTH_UID_NONE, 3, true⟩], 501⟩

theorem C4_find_reports_total_matches_w :
    envC4.idlenRead = some 1 ∧ kpersona_copyin envC4 = .ok infoC4 ∧
    envC4.mallocOk = true ∧ envC4.idlenWriteOk = true ∧
    ((kpersona_find_syscall 200 envC4 regC4).idsWritten.length ≤ 1 ∧
     (kpersona_find_syscall 200 envC4 regC4).reportedLen =
       some ((regC4.table.filter
         (personaMatch (cstr infoC4.persona_name) infoC4.persona_id)).length)) :=
  ⟨rfl, rfl, rfl, rfl,
   C4_find_reports_total_matches 200 1 envC4 regC4 infoC4 rfl rfl rfl rfl⟩

/-- C10: For every Find-Personas call, the caller-requested result limit is
clamped down to the registry's configured maximum before the search: a
request of u0 ≥ gmax behaves exactly like a request of gmax, and on every
path at most gmax references are acquired and at most gmax ids are written
out, however large the requested limit. -/
theorem C10_find_limit_clamped (gmax u0 : Nat) (env : BoundaryEnv)
    (reg : Registry) (h : gmax ≤ u0) :
    kpersona_find_syscall gmax { env with idlenRead := some u0 } reg =
      kpersona_find_syscall gmax { env with idlenRead := some gmax } reg ∧
    (kpersona_find_syscall gmax { env with idlenRead := some u0 } reg).acquired.length
      ≤ gmax ∧
    (kpersona_find_syscall gmax { env with idlenRead := some u0 } reg).idsWritten.length
      ≤ gmax := by
  have hclamp : (if gmax < u0 then gmax else u0) = gmax := by
    by_cases hlt : gmax < u0
    · simp [hlt]
    · simp [hlt]
      omega
  refine ⟨?_, (find_syscall_bounds gmax _ reg).1, (find_syscall_bounds gmax _ reg).2⟩
  simp [kpersona_find_syscall, kpersona_copyin, hclamp]

/-- C10 witness fixtures: a request of 10 against a configured maximum of 2. -/
def infoC10 : KPersonaInfo := ⟨1, PERSONA_ID_NONE, 0, 0, 0, [], 0, [97, 0]⟩

def envC10 : BoundaryEnv :=
  ⟨false, none, some infoC10, true, none, true, true, none, true,
   fun _ => true, true, 0, fun _ => none⟩

def regC10 : Registry :=
  ⟨[⟨7, 2, [97], none, [], KAUTH_UID_NONE, 1, true⟩,
    ⟨8, 2, [97], none, [], KAUTH_UID_NONE, 1, true⟩,
    ⟨9, 2, [97], none, [], KAUTH_UID_NONE, 1, true⟩], 501⟩

theorem C10_find_limit_clamped_w :
    2 ≤ 10 ∧
    (kpersona_find_syscall 2 { envC10 with idlenRead := some 10 } regC10 =
       kpersona_find_syscall 2 { envC10 with idlenRead := some 2 } regC10 ∧
     (kpersona_find_syscall 2 { envC10 with idlenRead := some 10 }
        regC10).acquired.length ≤ 2 ∧
     (kpersona_find_syscall 2 { envC10 with idlenRead := some 10 }
        regC10).idsWritten.length ≤ 2) :=
  ⟨by decide, C10_find_limit_clamped 2 10 envC10 regC10 (by decide)⟩

lemma alloc_syscall_success {gmax : Nat} {env : BoundaryEnv} {reg : Registry}
    {kinfo : KPersonaInfo} {p : Persona} {reg1 : Registry}
    (hsu : env.issuser = true) (hin : kpersona_copyin env = .ok kinfo)
    (halloc : persona_alloc gmax
        (if kinfo.persona_id != PERSONA_ID_NONE && kinfo.persona_id != 0
         then kinfo.persona_id else PERSONA_ID_NONE)
        (cstr kinfo.persona_name) kinfo.persona_type reg = .ok (p, reg1))
    (hgrp : kinfo.persona_ngroups ≤ NGROUPS)
    (hidw : env.idWriteOk = true)
    (hov : env.outVersionRead = some PERSONA_INFO_V1)
    (hiw : env.infoWriteOk = true) :
    (kpersona_alloc_syscall gmax env reg).err = 0 ∧
    (kpersona_alloc_syscall gmax env reg).idWritten = some p.pna_id := by
  have hsu2 : (!env.issuser) = false := by simp [hsu]
  have hidw2 : (!env.idWriteOk) = false := by simp [hidw]
  have hcp : ∀ k, kpersona_copyout k env = .ok k := by
    intro k
    simp [kpersona_copyout, hov, hiw]
  by_cases hng : (0 < kinfo.persona_ngroups)
  · by_cases hgm : (kinfo.persona_gmuid == 0) = true
    · constructor
      all_goals
        simp only [kpersona_alloc_syscall, hsu2, Bool.false_eq_true, if_false,
          hin, halloc]
        simp [hng, hgm, set_groups_ok p.pna_id kinfo.persona_groups _ hgrp,
          hidw2, hcp]
    · have hgm2 : (kinfo.persona_gmuid == 0) = false := by simpa using hgm
      constructor
      all_goals
        simp only [kpersona_alloc_syscall, hsu2, Bool.false_eq_true, if_false,
          hin, halloc]
        simp [hng, hgm2, set_groups_ok p.pna_id kinfo.persona_groups _ hgrp,
          hidw2, hcp]
  · constructor
    all_goals
      simp only [kpersona_alloc_syscall, hsu2, Bool.false_eq_true, if_false,
        hin, halloc]
      simp [hng, hidw2, hcp]

/-- C5 counterexample fixtures: an allocation requesting persona id 0. -/
def infoC5 : KPersonaInfo := ⟨1, 0, 5, 0, 0, [], 0, [0]⟩

def envC5 : BoundaryEnv :=
  ⟨true, none, some infoC5, true, some PERSONA_INFO_V1, true, true, none, true,
   fun _ => true, true, 0, fun _ => none⟩

def regC5 : Registry := ⟨[], 501⟩

/-- C5 counterexample: the requested id 0 differs from the "none" sentinel,
yet the call succeeds with a freshly generated id (501) instead of using 0 —
the syscall also maps a requested id of zero to the sentinel (source line
100), so fresh-id generation does not happen exactly on the sentinel. -/
theorem C5_counterexample :
    infoC5.persona_id = 0 ∧ (0 : Nat) ≠ PERSONA_ID_NONE ∧
    (kpersona_alloc_syscall 200 envC5 regC5).err = 0 ∧
    (kpersona_alloc_syscall 200 envC5 regC5).idWritten = some 501 :=
  ⟨rfl, by decide, rfl, rfl⟩

/-- C5 amended: the registry generates a fresh unused id exactly when the
requested id is the "none" sentinel or zero; for every other requested id
value the registry uses that id, failing with `EEXIST` when it is taken. -/
theorem C5_alloc_id_selection (gmax : Nat) (env : BoundaryEnv) (reg : Registry)
    (kinfo : KPersonaInfo)
    (hsu : env.issuser = true) (hin : kpersona_copyin env = .ok kinfo)
    (hcap : reg.table.length < gmax)
    (hgrp : kinfo.persona_ngroups ≤ NGROUPS)
    (hidw : env.idWriteOk = true)
    (hov : env.outVersionRead = some PERSONA_INFO_V1)
    (hiw : env.infoWriteOk = true) :
    ((kinfo.persona_id = PERSONA_ID_NONE ∨ kinfo.persona_id = 0) →
      (kpersona_alloc_syscall gmax env reg).err = 0 ∧
      ∃ i, (kpersona_alloc_syscall gmax env reg).idWritten = some i ∧
        idTaken reg.table i = false) ∧
    (kinfo.persona_id ≠ PERSONA_ID_NONE → kinfo.persona_id ≠ 0 →
      idTaken reg.table kinfo.persona_id = false →
      (kpersona_alloc_syscall gmax env reg).err = 0 ∧
      (kpersona_alloc_syscall gmax env reg).idWritten = some kinfo.persona_id) ∧
    (kinfo.persona_id ≠ PERSONA_ID_NONE → kinfo.persona_id ≠ 0 →
      idTaken reg.table kinfo.persona_id = true →
      kpersona_alloc_syscall gmax env reg = ⟨EEXIST, reg, none, none⟩) := by
  have hsu2 : (!env.issuser) = false := by simp [hsu]
  have hcap2 : ¬ (gmax ≤ reg.table.length) := Nat.not_le.mpr hcap
  refine ⟨?_, ?_, ?_⟩
  · intro hid
    have hsel : (if kinfo.persona_id != PERSONA_ID_NONE && kinfo.persona_id != 0
        then kinfo.persona_id else PERSONA_ID_NONE) = PERSONA_ID_NONE := by
      rcases hid with h | h
      all_goals simp [h]
    have halloc : persona_alloc gmax
        (if kinfo.persona_id != PERSONA_ID_NONE && kinfo.persona_id != 0
         then kinfo.persona_id else PERSONA_ID_NONE)
        (cstr kinfo.persona_name) kinfo.persona_type reg =
        .ok (⟨freshIdAux reg.table reg.nextId (reg.table.length + 1),
              kinfo.persona_type, cstr kinfo.persona_name, none, [],
              KAUTH_UID_NONE, 1, true⟩,
             ⟨reg.table ++ [⟨freshIdAux reg.table reg.nextId (reg.table.length + 1),
               kinfo.persona_type, cstr kinfo.persona_name, none, [],
               KAUTH_UID_NONE, 1, true⟩],
              max reg.nextId
                (freshIdAux reg.table reg.nextId (reg.table.length + 1) + 1)⟩) := by
      rw [hsel]
      simp [persona_alloc, hcap2]
    obtain ⟨he, hw⟩ := alloc_syscall_success hsu hin halloc hgrp hidw hov hiw
    exact ⟨he, ⟨_, hw, freshId_not_taken reg.table reg.nextId⟩⟩
  · intro hne hne0 htk
    have hallocB : persona_alloc gmax
        (if kinfo.persona_id != PERSONA_ID_NONE && kinfo.persona_id != 0
         then kinfo.persona_id else PERSONA_ID_NONE)
        (cstr kinfo.persona_name) kinfo.persona_type reg =
        .ok (⟨kinfo.persona_id, kinfo.persona_type, cstr kinfo.persona_name,
              none, [], KAUTH_UID_NONE, 1, true⟩,
             ⟨reg.table ++ [⟨kinfo.persona_id, kinfo.persona_type,
               cstr kinfo.persona_name, none, [], KAUTH_UID_NONE, 1, true⟩],
              max reg.nextId (kinfo.persona_id + 1)⟩) := by
      have hsel : (kinfo.persona_id != PERSONA_ID_NONE &&
          kinfo.persona_id != 0) = true := by simp [hne, hne0]
      rw [hsel]
      simp [persona_alloc, hcap2, htk, hne]
    obtain ⟨he, hw⟩ := alloc_syscall_success hsu hin hallocB hgrp hidw hov hiw
    exact ⟨he, hw⟩
  · intro hne hne0 htk
    have hsel : (kinfo.persona_id != PERSONA_ID_NONE &&
        kinfo.persona_id != 0) = true := by simp [hne, hne0]
    have hallocE : persona_alloc gmax
        (if kinfo.persona_id != PERSONA_ID_NONE && kinfo.persona_id != 0
         then kinfo.persona_id else PERSONA_ID_NONE)
        (cstr kinfo.persona_name) kinfo.persona_type reg =
        .error (α := Persona × Registry) EEXIST := by
      rw [hsel]
      simp [persona_alloc, hcap2, htk, hne]
    simp only [kpersona_alloc_syscall, hsu2, Bool.false_eq_true, if_false, hin,
      hallocE]

/-- C5 witness fixtures: an explicit, untaken id (77). -/
def infoC5w : KPersonaInfo := ⟨1, 77, 5, 0, 0, [], 0, [0]⟩

def envC5w : BoundaryEnv :=
  ⟨true, none, some infoC5w, true, some PERSONA_INFO_V1, true, true, none, true,
   fun _ => true, true, 0, fun _ => none⟩

def regC5w : Registry := ⟨[], 501⟩

theorem C5_alloc_id_selection_w :
    envC5w.issuser = true ∧ kpersona_copyin envC5w = .ok infoC5w ∧
    regC5w.table.length < 200 ∧ infoC5w.persona_ngroups ≤ NGROUPS ∧
    envC5w.idWriteOk = true ∧ envC5w.outVersionRead = some PERSONA_INFO_V1 ∧
    envC5w.infoWriteOk = true ∧
    (((infoC5w.persona_id = PERSONA_ID_NONE ∨ infoC5w.persona_id = 0) →
        (kpersona_alloc_syscall 200 envC5w regC5w).err = 0 ∧
        ∃ i, (kpersona_alloc_syscall 200 envC5w regC5w).idWritten = some i ∧
          idTaken regC5w.table i = false) ∧
     (infoC5w.persona_id ≠ PERSONA_ID_NONE → infoC5w.persona_id ≠ 0 →
        idTaken regC5w.table infoC5w.persona_id = false →
        (kpersona_alloc_syscall 200 envC5w regC5w).err = 0 ∧
        (kpersona_alloc_syscall 200 envC5w regC5w).idWritten =
          some infoC5w.persona_id) ∧
     (infoC5w.persona_id ≠ PERSONA_ID_NONE → infoC5w.persona_id ≠ 0 →
        idTaken regC5w.table infoC5w.persona_id = true →
        kpersona_alloc_syscall 200 envC5w regC5w = ⟨EEXIST, regC5w, none, none⟩)) :=
  ⟨rfl, rfl, by decide, by decide, rfl, rfl, rfl,
   C5_alloc_id_selection 200 envC5w regC5w infoC5w rfl rfl (by decide)
     (by decide) rfl rfl rfl⟩

/-- C6 counterexample fixtures: a Query-Info-By-Id whose destination record
carries version 999 and whose persona id is not in the registry. -/
def envC6 : BoundaryEnv :=
  ⟨true, some 99, none, true, some 999, true, true, none, true,
   fun _ => true, true, 0, fun _ => none⟩

def regC6 : Registry := ⟨[], 501⟩

/-- C6 counterexample: the record's version tag (999) differs from the
supported constant, yet the call fails with `ESRCH` (persona lookup runs
before the version check of the copy-out), not with the version-mismatch
error `EINVAL`. -/
theorem C6_counterexample :
    (999 : Nat) ≠ PERSONA_INFO_V1 ∧ envC6.outVersionRead = some 999 ∧
    (kpersona_info_syscall envC6 regC6).err = ESRCH ∧ ESRCH ≠ EINVAL :=
  ⟨by decide, rfl, rfl, by decide⟩

/-- C6 amended: whenever the version check is reached — immediately after the
privilege check for Allocate, after reading the requested length for Find,
and after a successful persona lookup for the two query operations — a
version tag different from the single supported constant fails the call with
`EINVAL`, and in every mismatch case no persona record contents are
transferred in either direction. -/
theorem C6_version_gate (gmax : Nat) (env : BoundaryEnv) (reg : Registry) :
    (∀ kinfo, env.issuser = true → env.infoRead = some kinfo →
      kinfo.persona_info_version ≠ PERSONA_INFO_V1 →
      kpersona_alloc_syscall gmax env reg = ⟨EINVAL, reg, none, none⟩) ∧
    (∀ kinfo u0, env.idlenRead = some u0 → env.infoRead = some kinfo →
      kinfo.persona_info_version ≠ PERSONA_INFO_V1 →
      (kpersona_find_syscall gmax env reg).err = EINVAL ∧
      (kpersona_find_syscall gmax env reg).reg = reg ∧
      (kpersona_find_syscall gmax env reg).idsWritten = []) ∧
    (∀ i pr v, env.idRead = some i → persona_lookup i reg = some pr →
      env.outVersionRead = some v → v ≠ PERSONA_INFO_V1 →
      (kpersona_info_syscall env reg).err = EINVAL ∧
      (kpersona_info_syscall env reg).infoWritten = none) ∧
    (∀ pid pr v, env.idRead = some pid →
      (env.issuser = true ∨ pid = env.currentPid) →
      persona_proc_get env pid reg = some pr →
      env.outVersionRead = some v → v ≠ PERSONA_INFO_V1 →
      (kpersona_pidinfo_syscall env reg).err = EINVAL ∧
      (kpersona_pidinfo_syscall env reg).infoWritten = none) := by
  refine ⟨?_, ?_, ?_, ?_⟩
  · intro kinfo hsu hrd hv
    have hsu2 : (!env.issuser) = false := by simp [hsu]
    have hin : kpersona_copyin env = .error EINVAL := by
      simp [kpersona_copyin, hrd, hv]
    simp [kpersona_alloc_syscall, hsu2, hin]
  · intro kinfo u0 hlen hrd hv
    have hin : kpersona_copyin env = .error EINVAL := by
      simp [kpersona_copyin, hrd, hv]
    simp [kpersona_find_syscall, hlen, hin]
  · intro i pr v hid hlk hov hv
    have hco : ∀ k, kpersona_copyout k env = .error EINVAL := by
      intro k
      simp [kpersona_copyout, hov, hv]
    simp [kpersona_info_syscall, hid, hlk, hco]
  · intro pid pr v hid hperm hpr hov hv
    have hco : ∀ k, kpersona_copyout k env = .error EINVAL := by
      intro k
      simp [kpersona_copyout, hov, hv]
    have hgate : (!env.issuser && pid != env.currentPid) = false := by
      rcases hperm with h | h
      · simp [h]
      · simp [h]
    simp [kpersona_pidinfo_syscall, hid, hgate, hpr, hco]

/-- C6 witness fixtures: a privileged Allocate whose record carries
version 3. -/
def infoC6w : KPersonaInfo := ⟨3, 0, 5, 0, 0, [], 0, [0]⟩

def envC6w : BoundaryEnv :=
  ⟨true, none, some infoC6w, true, some PERSONA_INFO_V1, true, true, none, true,
   fun _ => true, true, 0, fun _ => none⟩

def regC6w : Registry := ⟨[], 501⟩

theorem C6_version_gate_w :
    envC6w.issuser = true ∧ envC6w.infoRead = some infoC6w ∧
    infoC6w.persona_info_version ≠ PERSONA_INFO_V1 ∧
    kpersona_alloc_syscall 200 envC6w regC6w = ⟨EINVAL, regC6w, none, none⟩ :=
  ⟨rfl, rfl, by decide,
   (C6_version_gate 200 envC6w regC6w).1 infoC6w rfl rfl (by decide)⟩

lemma findById_fresh_tail {t : List Persona} {i : Nat} {q : Persona}
    (h : idTaken t i = false) (hqi : q.pna_id = i) :
    findById (t ++ [q]) i = some q := by
  rw [findById_append_left _ h]
  simp [findById, List.find?_cons, hqi]

/-- C7: For every Allocate-Persona call that supplies a non-empty
supplementary group list with a group-membership-resolution identity of
zero, the identity stored in the persona's Group-Set is the non-zero
"disabled" sentinel `KAUTH_UID_NONE`, not zero — whatever the outcome of the
later copy-out steps. -/
theorem C7_gmuid_zero_opts_out (gmax : Nat) (env : BoundaryEnv) (reg : Registry)
    (kinfo : KPersonaInfo) (p : Persona) (reg1 : Registry)
    (hsu : env.issuser = true) (hin : kpersona_copyin env = .ok kinfo)
    (halloc : persona_alloc gmax
        (if kinfo.persona_id != PERSONA_ID_NONE && kinfo.persona_id != 0
         then kinfo.persona_id else PERSONA_ID_NONE)
        (cstr kinfo.persona_name) kinfo.persona_type reg = .ok (p, reg1))
    (hng : 0 < kinfo.persona_ngroups) (hle : kinfo.persona_ngroups ≤ NGROUPS)
    (hgm : kinfo.persona_gmuid = 0) :
    ∃ q, findById (kpersona_alloc_syscall gmax env reg).reg.table p.pna_id =
        some q ∧ q.pna_gmuid = KAUTH_UID_NONE ∧ KAUTH_UID_NONE ≠ 0 := by
  obtain ⟨htab, hfree, hrc, hval, _, _, _⟩ := persona_alloc_ok halloc
  have hsu2 : (!env.issuser) = false := by simp [hsu]
  obtain ⟨p2, ht2, hp2i, hp2rc, hp2v⟩ :=
    gid_stage_shape htab hfree (kinfo.persona_gid != 0) kinfo.persona_gid
  simp only [bne_iff_ne, ne_eq, ite_not] at ht2
  have hgmb : (kinfo.persona_gmuid == 0) = true := by simp [hgm]
  have hup := updateTable_fresh_tail hfree hp2i
    (fun q => { q with pna_groups := kinfo.persona_groups.take kinfo.persona_ngroups,
                       pna_gmuid := KAUTH_UID_NONE })
  have hstep : (kpersona_alloc_syscall gmax env reg).reg.table =
      reg.table ++ [{ p2 with
        pna_groups := kinfo.persona_groups.take kinfo.persona_ngroups,
        pna_gmuid := KAUTH_UID_NONE }] ∨
      (kpersona_alloc_syscall gmax env reg).reg.table =
      putTable (reg.table ++ [{ p2 with
        pna_groups := kinfo.persona_groups.take kinfo.persona_ngroups,
        pna_gmuid := KAUTH_UID_NONE }]) p.pna_id := by
    by_cases hidw : env.idWriteOk = true
    · have hidw2 : (!env.idWriteOk) = false := by simp [hidw]
      rcases hco : kpersona_copyout { kinfo with persona_gmuid := KAUTH_UID_NONE }
          env with e | w
      all_goals
        left
        simp only [kpersona_alloc_syscall, hsu2, Bool.false_eq_true, if_false,
          hin, halloc]
        simp [hng, hgmb, set_groups_ok p.pna_id kinfo.persona_groups _ hle,
          hidw2, hco, ht2, hup]
    · have hidw2 : (!env.idWriteOk) = true := by simp [hidw]
      right
      simp only [kpersona_alloc_syscall, hsu2, Bool.false_eq_true, if_false,
        hin, halloc]
      simp [hng, hgmb, set_groups_ok p.pna_id kinfo.persona_groups _ hle,
        hidw2, persona_put, ht2, hup]
  have hsent : KAUTH_UID_NONE ≠ 0 := by decide
  rcases hstep with hs | hs
  · rw [hs]
    exact ⟨_, findById_fresh_tail hfree (by simpa using hp2i), by simp, hsent⟩
  · rw [hs]
    refine ⟨_, put_fresh_tail hfree (by simpa using hp2i)
      (by simpa using hp2rc.trans hrc) (by simpa using hp2v.trans hval), by simp, hsent⟩

/-- C7 witness fixtures: two supplementary groups with resolution identity
zero. -/
def infoC7 : KPersonaInfo := ⟨1, 0, 5, 0, 2, [10, 11], 0, [0]⟩

def envC7 : BoundaryEnv :=
  ⟨true, none, some infoC7, true, some PERSONA_INFO_V1, true, true, none, true,
   fun _ => true, true, 0, fun _ => none⟩

def regC7 : Registry := ⟨[], 501⟩

def pC7 : Persona := ⟨501, 5, [], none, [], KAUTH_UID_NONE, 1, true⟩

theorem C7_gmuid_zero_opts_out_w :
    envC7.issuser = true ∧ kpersona_copyin envC7 = .ok infoC7 ∧
    persona_alloc 200
      (if infoC7.persona_id != PERSONA_ID_NONE && infoC7.persona_id != 0
       then infoC7.persona_id else PERSONA_ID_NONE)
      (cstr infoC7.persona_name) infoC7.persona_type regC7 =
      .ok (pC7, ⟨[pC7], 502⟩) ∧
    0 < infoC7.persona_ngroups ∧ infoC7.persona_ngroups ≤ NGROUPS ∧
    infoC7.persona_gmuid = 0 ∧
    ∃ q, findById (kpersona_alloc_syscall 200 envC7 regC7).reg.table
        pC7.pna_id = some q ∧ q.pna_gmuid = KAUTH_UID_NONE ∧
        KAUTH_UID_NONE ≠ 0 :=
  ⟨rfl, rfl, rfl, by decide, by decide, rfl,
   C7_gmuid_zero_opts_out 200 envC7 regC7 infoC7 pC7 ⟨[pC7], 502⟩ rfl rfl rfl
     (by decide) (by decide) rfl⟩

lemma kpersona_copyout_err {k : KPersonaInfo} {env : BoundaryEnv} {e : Nat}
    (h : kpersona_copyout k env = .error e) : e = EFAULT ∨ e = EINVAL := by
  unfold kpersona_copyout at h
  rcases hov : env.outVersionRead with _ | v
  · rw [hov] at h
    simp at h
    exact Or.inl h.symm
  · rw [hov] at h
    by_cases hv : (v != PERSONA_INFO_V1) = true
    · simp [hv] at h
      exact Or.inr h.symm
    · have hv2 : (v != PERSONA_INFO_V1) = false := by simpa using hv
      by_cases hw : env.infoWriteOk = true
      · simp [hv2, hw] at h
      · have hw2 : env.infoWriteOk = false := by simpa using hw
        simp [hv2, hw2] at h
        exact Or.inl h.symm

/-- C8: For every Query-Info-By-Owner call, a caller that is neither
privileged nor querying its own process fails with `EPERM` before any
persona lookup is attempted (the registry is returned untouched and nothing
is written); the owner itself and privileged callers pass the gate, so their
calls never fail with `EPERM`. -/
theorem C8_pidinfo_permission_gate (env : BoundaryEnv) (reg : Registry)
    (pid : Nat) (hid : env.idRead = some pid) :
    (env.issuser = false → pid ≠ env.currentPid →
      kpersona_pidinfo_syscall env reg = ⟨EPERM, reg, none⟩) ∧
    ((env.issuser = true ∨ pid = env.currentPid) →
      (kpersona_pidinfo_syscall env reg).err ≠ EPERM) := by
  constructor
  · intro hsu hne
    have hgate : (!env.issuser && pid != env.currentPid) = true := by
      simp [hsu, hne]
    simp [kpersona_pidinfo_syscall, hid, hgate]
  · intro hperm
    have hgate : (!env.issuser && pid != env.currentPid) = false := by
      rcases hperm with h | h
      · simp [h]
      · simp [h]
    rcases hpg : persona_proc_get env pid reg with _ | pr
    · have he : (kpersona_pidinfo_syscall env reg).err = ESRCH := by
        simp [kpersona_pidinfo_syscall, hid, hgate, hpg]
      rw [he]
      decide
    · rcases hco : kpersona_copyout (personaSnapshot pr.1) env with e | w
      · have he : (kpersona_pidinfo_syscall env reg).err = e := by
          simp [kpersona_pidinfo_syscall, hid, hgate, hpg, hco]
        rw [he]
        rcases kpersona_copyout_err hco with h | h
        all_goals
          rw [h]
          decide
      · have he : (kpersona_pidinfo_syscall env reg).err = 0 := by
          simp [kpersona_pidinfo_syscall, hid, hgate, hpg, hco]
        rw [he]
        decide

/-- C8 witness fixtures: an unprivileged caller (process 5) asking about
process 9. -/
def envC8 : BoundaryEnv :=
  ⟨false, some 9, none, true, some PERSONA_INFO_V1, true, true, none, true,
   fun _ => true, true, 5, fun _ => none⟩

def regC8 : Registry :=
  ⟨[⟨7, 2, [97], none, [], KAUTH_UID_NONE, 1, true⟩], 501⟩

theorem C8_pidinfo_permission_gate_w :
    envC8.idRead = some 9 ∧
    ((envC8.issuser = false → 9 ≠ envC8.currentPid →
        kpersona_pidinfo_syscall envC8 regC8 = ⟨EPERM, regC8, none⟩) ∧
     ((envC8.issuser = true ∨ 9 = envC8.currentPid) →
        (kpersona_pidinfo_syscall envC8 regC8).err ≠ EPERM)) :=
  ⟨rfl, C8_pidinfo_permission_gate envC8 regC8 9 rfl⟩

/-- C9 counterexample fixtures: a 256-byte login with no NUL terminator. -/
def infoC9 : KPersonaInfo := ⟨1, 0, 0, 0, 0, [], 0, List.replicate 256 97⟩

def envC9 : BoundaryEnv :=
  ⟨true, none, some infoC9, true, none, true, true, none, true,
   fun _ => true, true, 0, fun _ => none⟩

/-- C9 counterexample: the caller-supplied login name is longer than
`MAXLOGNAME`, yet `kpersona_copyin` succeeds (no error is returned) and the
name is silently truncated by forcing a NUL at index `MAXLOGNAME` — the
overlong name is not rejected. -/
theorem C9_counterexample :
    MAXLOGNAME < (cstr infoC9.persona_name).length ∧
    kpersona_copyin envC9 =
      .ok { infoC9 with persona_name := List.replicate 255 97 ++ [0] } :=
  ⟨by decide, rfl⟩

lemma takeWhile_set_zero_length :
    ∀ (l : List Nat) (n : Nat), n < l.length →
      ((l.set n 0).takeWhile (fun b => b != 0)).length ≤ n := by
  intro l
  induction l with
  | nil => intro n h; simp at h
  | cons x xs ih =>
    intro n h
    cases n with
    | zero => simp [List.set, List.takeWhile]
    | succ m =>
      by_cases hx : (x != 0) = true
      · have hrec := ih m (by simpa using Nat.lt_of_succ_lt_succ h)
        simp only [List.set, List.takeWhile, hx, List.length_cons]
        omega
      · have hx2 : (x != 0) = false := by simpa using hx
        simp [List.set, List.takeWhile, hx2]

lemma take_set (a : Nat) :
    ∀ (l : List Nat) (n : Nat), (l.set n a).take n = l.take n := by
  intro l
  induction l with
  | nil => intro n; simp
  | cons x xs ih =>
    intro n
    cases n with
    | zero => simp
    | succ m => simp [List.set, List.take_succ_cons, ih m]

/-- C9 amended: a caller-supplied login name longer than `MAXLOGNAME` is not
rejected: the copy-in succeeds, and the name is silently truncated — a NUL is
forced at index `MAXLOGNAME`, so the effective login keeps the first
`MAXLOGNAME` bytes and is at most `MAXLOGNAME` long. -/
theorem C9_overlong_login_truncated (env : BoundaryEnv) (kinfo : KPersonaInfo)
    (hrd : env.infoRead = some kinfo)
    (hv : kinfo.persona_info_version = PERSONA_INFO_V1)
    (h2 : env.infoRead2Ok = true)
    (hlong : MAXLOGNAME < kinfo.persona_name.length) :
    ∃ k, kpersona_copyin env = .ok k ∧
      (cstr k.persona_name).length ≤ MAXLOGNAME ∧
      k.persona_name.take MAXLOGNAME = kinfo.persona_name.take MAXLOGNAME := by
  refine ⟨{ kinfo with persona_name := kinfo.persona_name.set MAXLOGNAME 0 },
    ?_, ?_, ?_⟩
  · simp [kpersona_copyin, hrd, hv, h2]
  · exact takeWhile_set_zero_length kinfo.persona_name MAXLOGNAME hlong
  · exact take_set 0 kinfo.persona_name MAXLOGNAME

/-- C9 witness fixtures: the same overlong-name record read successfully. -/
def envC9w : BoundaryEnv :=
  ⟨true, none, some infoC9, true, none, true, true, none, true,
   fun _ => true, true, 0, fun _ => none⟩

theorem C9_overlong_login_truncated_w :
    envC9w.infoRead = some infoC9 ∧
    infoC9.persona_info_version = PERSONA_INFO_V1 ∧
    envC9w.infoRead2Ok = true ∧
    MAXLOGNAME < infoC9.persona_name.length ∧
    ∃ k, kpersona_copyin envC9w = .ok k ∧
      (cstr k.persona_name).length ≤ MAXLOGNAME ∧
      k.persona_name.take MAXLOGNAME = infoC9.persona_name.take MAXLOGNAME :=
  ⟨rfl, rfl, rfl, by decide,
   C9_overlong_login_truncated envC9w infoC9 rfl rfl rfl (by decide)⟩

end SysPersona
